import Mathlib

/-!
Verification development for the openkruise/agents client-side sandbox
access layer.  The definitions below are shallow embeddings of the Python
source:

* `src/test/e2b/utils.py` — the retry wrappers `connect_sandbox`,
  `run_code_sandbox` and the pagination helper `list_sandbox`;
* `src/sdk/customized_e2b/kruise_agents/e2b.py` — the `Sandbox` subclass
  (`get_host`, `create`) and the endpoint resolver `get_api_url`;
* `src/sdk/customized_e2b/kruise_agents/patch_e2b.py` — the monkey-patch
  module (`__sandbox_get_host`, `__get_api_url`,
  `__connection_config_get_sandbox_url_http`, `__jupyter_url_http`,
  `patch_e2b`).

Python exceptions are modelled by their message strings (`str(e)` is all
the code inspects); a remote call made on attempt `i` is modelled as a
function `op : Nat → Except String α` giving the outcome of the i-th
invocation.  `os.environ` lookups are modelled as `Option String`.
-/

/-- Substring membership test: Python `needle in hay` membership on strings.
`beginsWith hay needle` is true when `needle` is an initial segment of
`hay`; `hasSub hay needle` when `needle` occurs anywhere inside `hay`. -/
def beginsWith : List Char → List Char → Bool
  | _, [] => true
  | [], _ :: _ => false
  | a :: hs, b :: ns => a == b && beginsWith hs ns

def hasSub (hay needle : String) : Bool :=
  (List.range (hay.toList.length + 1)).any fun i =>
    beginsWith (hay.toList.drop i) needle.toList

/-- Observable trace of one call to a retry wrapper of
`src/test/e2b/utils.py`: what the wrapper finally does (`none` models
falling through the loop to the trailing `return None`; `some (.ok v)`
a `return` of a successful result; `some (.error m)` an exception with
message `m` propagating to the caller), how many times the underlying
operation was invoked, and the list of `time.sleep` durations performed,
in order. -/
structure RetryTrace (α : Type) where
  result : Option (Except String α)
  invocations : Nat
  sleeps : List Nat
deriving Repr

/-- The error message fragment `connect_sandbox` classifies as
pausing-transient (utils.py line 39). -/
def pausingIndicator : String :=
  "sandbox is pausing, please wait a moment and try again"

/-- utils.py line 28. -/
def connect_max_retries : Nat := 30

/-- utils.py line 29 (seconds). -/
def connect_retry_interval : Nat := 2

/-- Message of the fresh exception raised on exhaustion,
utils.py line 45: `f"Sandbox still pausing after {max_retries} retries"`. -/
def connectExhaustMsg : String :=
  "Sandbox still pausing after " ++ toString connect_max_retries ++ " retries"

/-- One pass through the `for attempt in range(max_retries)` loop of
`connect_sandbox` (utils.py lines 31-48), starting at iteration `attempt`
with `fuel` loop iterations remaining (`fuel = max_retries - attempt` at
every real call).  The `timeout` forwarding on lines 33-36 selects the
same underlying call on every attempt and is absorbed into `op`.
Exhausting `fuel` models the loop ending, after which line 49 executes
`return None`. -/
def connectIter (op : Nat → Except String α) (maxRetries interval : Nat) :
    Nat → Nat → RetryTrace α
  | _, 0 => ⟨none, 0, []⟩
  | attempt, fuel + 1 =>
    match op attempt with
    | .ok v => ⟨some (.ok v), 1, []⟩
    | .error msg =>
      if hasSub msg pausingIndicator then
        if attempt < maxRetries - 1 then
          let r := connectIter op maxRetries interval (attempt + 1) fuel
          ⟨r.result, r.invocations + 1, interval :: r.sleeps⟩
        else
          ⟨some (.error connectExhaustMsg), 1, []⟩
      else
        ⟨some (.error msg), 1, []⟩

/-- Embedding of `connect_sandbox`, utils.py lines 12-49, abstracted over the
underlying `sbx.connect` call. -/
def connect_sandbox (op : Nat → Except String α) : RetryTrace α :=
  connectIter op connect_max_retries connect_retry_interval 0 connect_max_retries

/-- utils.py line 66. -/
def run_max_retries : Nat := 5

/-- utils.py line 67 (seconds). -/
def run_retry_interval : Nat := 5

/-- One pass through the loop of `run_code_sandbox` (utils.py lines
69-80): every exception is retried while attempts remain; on the last
attempt the bare `raise` re-raises the caught exception unchanged. -/
def runIter (op : Nat → Except String α) (maxRetries interval : Nat) :
    Nat → Nat → RetryTrace α
  | _, 0 => ⟨none, 0, []⟩
  | attempt, fuel + 1 =>
    match op attempt with
    | .ok v => ⟨some (.ok v), 1, []⟩
    | .error msg =>
      if attempt < maxRetries - 1 then
        let r := runIter op maxRetries interval (attempt + 1) fuel
        ⟨r.result, r.invocations + 1, interval :: r.sleeps⟩
      else
        ⟨some (.error msg), 1, []⟩

/-- Embedding of `run_code_sandbox`, utils.py lines 52-81, abstracted over the
underlying `sbx.run_code` call. -/
def run_code_sandbox (op : Nat → Except String α) : RetryTrace α :=
  runIter op run_max_retries run_retry_interval 0 run_max_retries

/-- A paginator as consumed by `list_sandbox`: the sequence of pages it
will yield, in order. -/
structure Paginator (α : Type) where
  pages : List (List α)
deriving Repr

/-- Predicate `paginator.has_next`: more items remain. -/
def Paginator.has_next (p : Paginator α) : Bool := !p.pages.isEmpty

/-- Operation `paginator.next_items()`: the next page, and the paginator after it. -/
def Paginator.next_items : Paginator α → List α × Paginator α
  | ⟨[]⟩ => ([], ⟨[]⟩)
  | ⟨pg :: rest⟩ => (pg, ⟨rest⟩)

/-- The `while paginator.has_next: sandboxes.extend(paginator.next_items())`
loop of utils.py lines 96-98, consuming the remaining pages. -/
def listLoop : List (List α) → List α
  | [] => []
  | pg :: rest => pg ++ listLoop rest

/-- Embedding of `list_sandbox`, utils.py lines 84-100: one unconditional
`next_items()` (line 94), then the drain loop.  The `query` argument only
selects which paginator `Sandbox.list` builds and is absorbed into `p`. -/
def list_sandbox (p : Paginator α) : List α :=
  let first := p.next_items
  first.fst ++ listLoop first.snd.pages

/-- Embedding of `get_api_url`, e2b.py lines 68-69: the URL is
built as scheme, then "://", then the E2B_DOMAIN environment value, then "/kruise/api".
A missing `E2B_DOMAIN` raises `KeyError`. -/
def get_api_url (https : Bool) (envDomain : Option String) : Except String String :=
  match envDomain with
  | none => .error "KeyError: E2B_DOMAIN"
  | some domain =>
      .ok ((if https then "https" else "http") ++ "://" ++ domain ++ "/kruise/api")

/-- Embedding of `__get_api_url`, patch_e2b.py lines 17-18, embedded separately from
its textual twin in e2b.py so the two can be compared. -/
def __get_api_url (https : Bool) (envDomain : Option String) : Except String String :=
  match envDomain with
  | none => .error "KeyError: E2B_DOMAIN"
  | some domain =>
      .ok ((if https then "https" else "http") ++ "://" ++ domain ++ "/kruise/api")

namespace Sandbox

/-- Embedding of `Sandbox.get_host`, e2b.py lines 11-12:
`f"sandbox.{self.sandbox_domain}/kruise/{self.sandbox_id}/{port}"`. -/
def get_host (sandbox_domain sandbox_id : String) (port : Nat) : String :=
  "sandbox." ++ sandbox_domain ++ "/kruise/" ++ sandbox_id ++ "/" ++ toString port

end Sandbox

/-- Embedding of `__sandbox_get_host`, patch_e2b.py lines 9-10:
`f"{self.sandbox_domain}/kruise/{self.sandbox_id}/{port}"`. -/
def __sandbox_get_host (sandbox_domain sandbox_id : String) (port : Nat) : String :=
  sandbox_domain ++ "/kruise/" ++ sandbox_id ++ "/" ++ toString port

/-- Embedding of `__connection_config_get_host`, patch_e2b.py lines 13-14. -/
def __connection_config_get_host (sandbox_id sandbox_domain : String) (port : Nat) : String :=
  sandbox_domain ++ "/kruise/" ++ sandbox_id ++ "/" ++ toString port

/-- Embedding of `__connection_config_get_sandbox_url_http`, patch_e2b.py lines
21-22; `envd_port` stands for `ConnectionConfig.envd_port`, a constant of
the external e2b SDK. -/
def __connection_config_get_sandbox_url_http
    (sandbox_id sandbox_domain : String) (envd_port : Nat) : String :=
  "http://" ++ __connection_config_get_host sandbox_id sandbox_domain envd_port

/-- Embedding of `__jupyter_url_http`, patch_e2b.py lines 25-26; `jupyterPort`
stands for the external constant `JUPYTER_PORT`. -/
def __jupyter_url_http (sandbox_domain sandbox_id : String) (jupyterPort : Nat) : String :=
  "http://" ++ __sandbox_get_host sandbox_domain sandbox_id jupyterPort

/-- The slice of the e2b `ConnectionConfig` instance state that
`Sandbox.create` mutates (e2b.py line 41). -/
structure ConnectionConfig where
  debug : Bool
deriving Repr, DecidableEq

/-- The post-processing step of `Sandbox.create` (e2b.py lines 40-42):
`if not https: sbx.connection_config.debug = True`, applied to the
configuration of the sandbox returned by the superclass call. -/
def create_debug_update (https : Bool) (cfg : ConnectionConfig) : ConnectionConfig :=
  if https then cfg else { cfg with debug := true }

/-- The process-wide attributes `patch_e2b` can mutate: the
`E2B_API_URL` environment variable and, for each patched method, whether
the kruise replacement is installed. -/
structure PatchState where
  env_E2B_API_URL : Option String
  sandboxBase_get_host_patched : Bool
  connCfg_get_host_patched : Bool
  connCfg_sandbox_url_forced_http : Bool
  jupyter_url_forced_http : Bool
deriving Repr, DecidableEq

/-- Embedding of `patch_e2b`, patch_e2b.py lines 28-34: always sets `E2B_API_URL`
(propagating the `KeyError` should `E2B_DOMAIN` be unset) and swaps in the
two host resolvers; only when `https` is false does it additionally force
the sandbox URL and the Jupyter URL to the plain-http variants. -/
def patch_e2b (https : Bool) (envDomain : Option String) (st : PatchState) :
    Except String PatchState :=
  match __get_api_url https envDomain with
  | .error e => .error e
  | .ok url =>
    let st1 := { st with
      env_E2B_API_URL := some url
      sandboxBase_get_host_patched := true
      connCfg_get_host_patched := true }
    if https then .ok st1
    else .ok { st1 with
      connCfg_sandbox_url_forced_http := true
      jupyter_url_forced_http := true }

/-! ## Helper lemmas about the retry loops -/

/-- Loop invariant for `connectIter`: started inside its attempt range
with enough fuel, the loop invokes the operation at least once and at
most once per remaining iteration, never falls through to `return None`,
and sleeps exactly the fixed interval between consecutive attempts. -/
theorem connectIter_inv (op : Nat → Except String α) (m i : Nat) :
    ∀ fuel attempt, attempt < m → m - attempt ≤ fuel →
      1 ≤ (connectIter op m i attempt fuel).invocations ∧
      (connectIter op m i attempt fuel).invocations ≤ m - attempt ∧
      (connectIter op m i attempt fuel).result.isSome = true ∧
      (connectIter op m i attempt fuel).sleeps =
        List.replicate ((connectIter op m i attempt fuel).invocations - 1) i := by
  intro fuel
  induction fuel with
  | zero => intro attempt h1 h2; omega
  | succ fuel ih =>
    intro attempt h1 h2
    simp only [connectIter]
    cases hop : op attempt with
    | ok v => simp; omega
    | error msg =>
      by_cases hcl : hasSub msg pausingIndicator
      · simp only [hcl, if_true]
        by_cases hlast : attempt < m - 1
        · simp only [hlast, if_true]
          obtain ⟨ih1, ih2, ih3, ih4⟩ := ih (attempt + 1) (by omega) (by omega)
          refine ⟨by omega, by omega, by simpa using ih3, ?_⟩
          simp only [Nat.add_sub_cancel]
          obtain ⟨k, hk⟩ : ∃ k, (connectIter op m i (attempt + 1) fuel).invocations = k + 1 :=
            ⟨(connectIter op m i (attempt + 1) fuel).invocations - 1, by omega⟩
          simp only [ih4, hk, Nat.add_sub_cancel, List.replicate_succ]
        · simp only [hlast, if_false]
          simp; omega
      · simp only [hcl, if_false]
        simp; omega

/-- Loop invariant for `runIter`, identical in shape to
`connectIter_inv`. -/
theorem runIter_inv (op : Nat → Except String α) (m i : Nat) :
    ∀ fuel attempt, attempt < m → m - attempt ≤ fuel →
      1 ≤ (runIter op m i attempt fuel).invocations ∧
      (runIter op m i attempt fuel).invocations ≤ m - attempt ∧
      (runIter op m i attempt fuel).result.isSome = true ∧
      (runIter op m i attempt fuel).sleeps =
        List.replicate ((runIter op m i attempt fuel).invocations - 1) i := by
  intro fuel
  induction fuel with
  | zero => intro attempt h1 h2; omega
  | succ fuel ih =>
    intro attempt h1 h2
    simp only [runIter]
    cases hop : op attempt with
    | ok v => simp; omega
    | error msg =>
      by_cases hlast : attempt < m - 1
      · simp only [hlast, if_true]
        obtain ⟨ih1, ih2, ih3, ih4⟩ := ih (attempt + 1) (by omega) (by omega)
        refine ⟨by omega, by omega, by simpa using ih3, ?_⟩
        simp only [Nat.add_sub_cancel]
        obtain ⟨k, hk⟩ : ∃ k, (runIter op m i (attempt + 1) fuel).invocations = k + 1 :=
          ⟨(runIter op m i (attempt + 1) fuel).invocations - 1, by omega⟩
        simp only [ih4, hk, Nat.add_sub_cancel, List.replicate_succ]
      · simp only [hlast, if_false]
        simp; omega

/-- If every attempt raises a pausing-classified error, `connectIter`
runs every remaining iteration and surfaces the fresh exhaustion
exception of utils.py line 45. -/
theorem connectIter_all_pausing (op : Nat → Except String α) (m i : Nat) :
    ∀ fuel attempt, attempt < m → fuel = m - attempt →
      (∀ j, j < m → ∃ msg, op j = .error msg ∧ hasSub msg pausingIndicator = true) →
      connectIter op m i attempt fuel =
        ⟨some (.error connectExhaustMsg), m - attempt,
         List.replicate (m - attempt - 1) i⟩ := by
  intro fuel
  induction fuel with
  | zero => intro attempt h1 h2 _; omega
  | succ fuel ih =>
    intro attempt h1 h2 hall
    obtain ⟨msg, hop, hcl⟩ := hall attempt h1
    simp only [connectIter, hop, hcl, if_true]
    by_cases hlast : attempt < m - 1
    · simp only [hlast, if_true]
      simp only [ih (attempt + 1) (by omega) (by omega) hall, RetryTrace.mk.injEq]
      refine ⟨trivial, by omega, ?_⟩
      have h3 : m - attempt - 1 = (m - (attempt + 1) - 1) + 1 := by omega
      rw [h3, List.replicate_succ]
    · simp only [hlast, if_false]
      have h3 : m - attempt = 1 := by omega
      simp [h3]

/-- If every attempt raises an error, `runIter` runs every remaining
iteration and re-raises the error of the final attempt unchanged (the bare
`raise` of utils.py line 80). -/
theorem runIter_all_error (op : Nat → Except String α) (m i : Nat) :
    ∀ fuel attempt, attempt < m → fuel = m - attempt →
      (∀ j, j < m → ∃ msg, op j = .error msg) →
      ∃ last, op (m - 1) = .error last ∧
        runIter op m i attempt fuel =
          ⟨some (.error last), m - attempt, List.replicate (m - attempt - 1) i⟩ := by
  intro fuel
  induction fuel with
  | zero => intro attempt h1 h2 _; omega
  | succ fuel ih =>
    intro attempt h1 h2 hall
    obtain ⟨msg, hop⟩ := hall attempt h1
    simp only [runIter, hop]
    by_cases hlast : attempt < m - 1
    · simp only [hlast, if_true]
      obtain ⟨last, hl, heq⟩ := ih (attempt + 1) (by omega) (by omega) hall
      refine ⟨last, hl, ?_⟩
      simp only [heq, RetryTrace.mk.injEq]
      refine ⟨trivial, by omega, ?_⟩
      have h3 : m - attempt - 1 = (m - (attempt + 1) - 1) + 1 := by omega
      rw [h3, List.replicate_succ]
    · simp only [hlast, if_false]
      have ha : attempt = m - 1 := by omega
      refine ⟨msg, by rw [← ha]; exact hop, ?_⟩
      have h3 : m - attempt = 1 := by omega
      simp [h3]

/-- An error can surface from `runIter` only on the final iteration:
whenever the loop propagates an exception, every remaining attempt was
consumed and the surfaced message is exactly that of the final attempt. -/
theorem runIter_error_result (op : Nat → Except String α) (m i : Nat) :
    ∀ fuel attempt msg, attempt < m → fuel = m - attempt →
      (runIter op m i attempt fuel).result = some (.error msg) →
      (runIter op m i attempt fuel).invocations = m - attempt ∧
        op (m - 1) = .error msg := by
  intro fuel
  induction fuel with
  | zero => intro attempt msg h1 h2 _; omega
  | succ fuel ih =>
    intro attempt msg h1 h2 hres
    cases hop : op attempt with
    | ok v => simp [runIter, hop] at hres
    | error emsg =>
      by_cases hlast : attempt < m - 1
      · simp only [runIter, hop, hlast, if_true] at hres ⊢
        obtain ⟨ih1, ih2⟩ := ih (attempt + 1) msg (by omega) (by omega) hres
        exact ⟨by omega, ih2⟩
      · simp only [runIter, hop, hlast, if_false] at hres ⊢
        have ha : attempt = m - 1 := by omega
        obtain rfl : emsg = msg := by simpa using hres
        exact ⟨by omega, by rw [← ha]; exact hop⟩

/-- If the first `t` attempts (all before the bound) raise errors and
attempt `t` succeeds, `runIter` returns that success after exactly `t`
sleeps. -/
theorem runIter_first_success (op : Nat → Except String α) (m i : Nat) (v : α) :
    ∀ t attempt fuel, attempt + t < m → fuel = m - attempt →
      (∀ j, attempt ≤ j → j < attempt + t → ∃ msg, op j = .error msg) →
      op (attempt + t) = .ok v →
      runIter op m i attempt fuel = ⟨some (.ok v), t + 1, List.replicate t i⟩ := by
  intro t
  induction t with
  | zero =>
    intro attempt fuel h1 h2 hfail hok
    obtain ⟨f, hf⟩ : ∃ f, fuel = f + 1 := ⟨fuel - 1, by omega⟩
    subst hf
    simp only [Nat.add_zero] at hok
    simp [runIter, hok]
  | succ t ih =>
    intro attempt fuel h1 h2 hfail hok
    obtain ⟨f, hf⟩ : ∃ f, fuel = f + 1 := ⟨fuel - 1, by omega⟩
    subst hf
    obtain ⟨msg, hop⟩ := hfail attempt (le_refl _) (by omega)
    have hlast : attempt < m - 1 := by omega
    simp only [runIter, hop, hlast, if_true]
    rw [ih (attempt + 1) f (by omega) (by omega)
      (fun j hj1 hj2 => hfail j (by omega) (by omega))
      (by rw [show attempt + 1 + t = attempt + (t + 1) from by omega]; exact hok)]
    simp [List.replicate_succ]

/-- A non-pausing error on the very first attempt makes `connectIter`
re-raise it at once (the bare `raise` of utils.py line 48). -/
theorem connectIter_first_terminal (op : Nat → Except String α) (m i fuel : Nat)
    (msg : String) (h0 : op 0 = .error msg)
    (hterm : hasSub msg pausingIndicator = false) :
    connectIter op m i 0 (fuel + 1) = ⟨some (.error msg), 1, []⟩ := by
  simp [connectIter, h0, hterm]

/-- If the first `k` attempts raise pausing-classified errors and attempt
`k` raises a non-pausing error, `connectIter` re-raises that error at
once: the terminal error consumes no further attempts. -/
theorem connectIter_terminal_at (op : Nat → Except String α) (m i : Nat) (tmsg : String)
    (hterm : hasSub tmsg pausingIndicator = false) :
    ∀ k attempt fuel, attempt + k < m → fuel = m - attempt →
      (∀ j, attempt ≤ j → j < attempt + k →
        ∃ msg, op j = .error msg ∧ hasSub msg pausingIndicator = true) →
      op (attempt + k) = .error tmsg →
      connectIter op m i attempt fuel =
        ⟨some (.error tmsg), k + 1, List.replicate k i⟩ := by
  intro k
  induction k with
  | zero =>
    intro attempt fuel h1 h2 hprev hop
    obtain ⟨f, hf⟩ : ∃ f, fuel = f + 1 := ⟨fuel - 1, by omega⟩
    subst hf
    simp only [Nat.add_zero] at hop
    simp [connectIter, hop, hterm]
  | succ k ih =>
    intro attempt fuel h1 h2 hprev hop
    obtain ⟨f, hf⟩ : ∃ f, fuel = f + 1 := ⟨fuel - 1, by omega⟩
    subst hf
    obtain ⟨msg, hopa, hcl⟩ := hprev attempt (le_refl _) (by omega)
    have hlast : attempt < m - 1 := by omega
    simp only [connectIter, hopa, hcl, if_true, hlast]
    rw [ih (attempt + 1) f (by omega) (by omega)
      (fun j hj1 hj2 => hprev j (by omega) (by omega))
      (by rw [show attempt + 1 + k = attempt + (k + 1) from by omega]; exact hop)]
    simp [List.replicate_succ]

/-- The while-loop of `list_sandbox` drains exactly the remaining pages,
in order. -/
theorem listLoop_eq_join (l : List (List α)) : listLoop l = l.flatten := by
  induction l with
  | nil => rfl
  | cons pg rest ih => simp [listLoop, ih]

/-! ## Claim theorems -/

/-- Claim C1, counterexample: with an underlying call raising
"connection reset" on every attempt, `run_code_sandbox` does perform its
5 attempts, but the error it finally surfaces is exactly
"connection reset" — the last underlying error re-raised unchanged,
identical to what a single failed invocation raises, with no exhaustion
indication.  The exhaustion notice of utils.py line 79 goes only to
standard output, not into the surfaced error. -/
theorem run_code_exhaustion_unflagged :
    run_code_sandbox (fun _ => (Except.error "connection reset" : Except String Unit)) =
      ⟨some (Except.error "connection reset"), 5, List.replicate 4 5⟩ := by
  rfl

/-- Claim C1, amended: an operation that raises a transient-classified
error on every attempt is invoked exactly 30 times by `connect_sandbox`
and exactly 5 times by `run_code_sandbox`; `connect_sandbox` surfaces a
fresh exhaustion error ("Sandbox still pausing after 30 retries", itself
not pausing-classified, hence distinguishable from any first-attempt
transient failure), while `run_code_sandbox` re-raises the final
underlying error of the final attempt, unchanged. -/
theorem retry_exhaustion_amended (opC : Nat → Except String α) (opR : Nat → Except String β)
    (hC : ∀ j, j < connect_max_retries →
      ∃ msg, opC j = .error msg ∧ hasSub msg pausingIndicator = true)
    (hR : ∀ j, j < run_max_retries → ∃ msg, opR j = .error msg) :
    connect_sandbox opC =
      ⟨some (.error connectExhaustMsg), connect_max_retries,
       List.replicate (connect_max_retries - 1) connect_retry_interval⟩ ∧
    hasSub connectExhaustMsg pausingIndicator = false ∧
    ∃ last, opR (run_max_retries - 1) = .error last ∧
      run_code_sandbox opR =
        ⟨some (.error last), run_max_retries,
         List.replicate (run_max_retries - 1) run_retry_interval⟩ := by
  refine ⟨?_, by decide, ?_⟩
  · have h := connectIter_all_pausing opC connect_max_retries connect_retry_interval
      connect_max_retries 0 (by decide) (by decide) hC
    simpa [connect_sandbox] using h
  · have h := runIter_all_error opR run_max_retries run_retry_interval
      run_max_retries 0 (by decide) (by decide) hR
    simpa [run_code_sandbox] using h

/-- Concrete instantiation of `retry_exhaustion_amended`: a connect call
stuck on the pausing message for all 30 attempts, and a run call raising
"gateway timeout" on all 5. -/
theorem retry_exhaustion_amended_witness :
    connect_sandbox (fun _ => (Except.error pausingIndicator : Except String Unit)) =
      ⟨some (Except.error connectExhaustMsg), 30, List.replicate 29 2⟩ ∧
    run_code_sandbox (fun _ => (Except.error "gateway timeout" : Except String Unit)) =
      ⟨some (Except.error "gateway timeout"), 5, List.replicate 4 5⟩ := by
  have h := retry_exhaustion_amended
    (fun _ => (Except.error pausingIndicator : Except String Unit))
    (fun _ => (Except.error "gateway timeout" : Except String Unit))
    (fun j _ => ⟨pausingIndicator, rfl, by decide⟩)
    (fun j _ => ⟨"gateway timeout", rfl⟩)
  obtain ⟨h1, -, last, hlast, h2⟩ := h
  obtain rfl : "gateway timeout" = last := by simpa using hlast
  exact ⟨h1, h2⟩

/-- Claim C2: `connect_sandbox` retries only pausing-classified errors.
A non-pausing error raised on attempt `k` (after `k` pausing-transient
failures) propagates to the caller unchanged at once: the operation has
been invoked exactly `k + 1` times and no further attempt is consumed;
with `k = 0`, a first-attempt terminal error means exactly one
invocation and no sleeping. -/
theorem connect_terminal_error_immediate (op : Nat → Except String α) (k : Nat) (msg : String)
    (hk : k < 30)
    (hprev : ∀ j, j < k → ∃ m, op j = .error m ∧ hasSub m pausingIndicator = true)
    (hop : op k = .error msg) (hterm : hasSub msg pausingIndicator = false) :
    connect_sandbox op = ⟨some (.error msg), k + 1, List.replicate k 2⟩ := by
  have h := connectIter_terminal_at op connect_max_retries connect_retry_interval msg hterm
    k 0 connect_max_retries (by rw [Nat.zero_add]; exact hk) (by decide)
    (fun j hj1 hj2 => hprev j (by omega))
    (by rw [Nat.zero_add]; exact hop)
  exact h

/-- Concrete instantiation of `connect_terminal_error_immediate`: a
not-found error on the first attempt surfaces unchanged after exactly
one invocation. -/
theorem connect_terminal_error_immediate_witness :
    connect_sandbox (fun _ => (Except.error "sandbox not found" : Except String Unit)) =
      ⟨some (Except.error "sandbox not found"), 1, []⟩ :=
  connect_terminal_error_immediate _ 0 "sandbox not found" (by decide)
    (fun j hj => absurd hj (Nat.not_lt_zero j)) rfl (by decide)

/-- Claim C3: both retry loops are bounded by their configured maxima
(30 attempts for `connect_sandbox`, 5 for `run_code_sandbox`), and every
sleep between consecutive attempts is the fixed interval (2 seconds
resp. 5 seconds): the sleep list is exactly one fixed-interval entry per
retry, one fewer than the invocations. -/
theorem retry_bounds_and_delays (op : Nat → Except String α) (op2 : Nat → Except String β) :
    (connect_sandbox op).invocations ≤ 30 ∧
    (connect_sandbox op).sleeps =
      List.replicate ((connect_sandbox op).invocations - 1) 2 ∧
    (run_code_sandbox op2).invocations ≤ 5 ∧
    (run_code_sandbox op2).sleeps =
      List.replicate ((run_code_sandbox op2).invocations - 1) 5 := by
  obtain ⟨-, h2, -, h4⟩ := connectIter_inv op connect_max_retries connect_retry_interval
    connect_max_retries 0 (by decide) (by decide)
  obtain ⟨-, k2, -, k4⟩ := runIter_inv op2 run_max_retries run_retry_interval
    run_max_retries 0 (by decide) (by decide)
  exact ⟨h2, h4, k2, k4⟩

/-- Claim C4: the endpoint resolver is a pure function of its inputs:
with domain `d` configured it returns "https://d/kruise/api" when the
secure flag holds and "http://d/kruise/api" otherwise; with `E2B_DOMAIN`
absent it fails (the `KeyError`) for either flag instead of synthesizing
a domain. -/
theorem get_api_url_spec (d : String) :
    get_api_url true (some d) = .ok ("https://" ++ d ++ "/kruise/api") ∧
    get_api_url false (some d) = .ok ("http://" ++ d ++ "/kruise/api") ∧
    ∀ b : Bool, get_api_url b none = .error "KeyError: E2B_DOMAIN" :=
  ⟨rfl, rfl, fun _ => rfl⟩

/-- Claim C5, counterexample: at domain "gw.example.com", session
"sess1", port 8080, the subclass `Sandbox.get_host` of e2b.py returns
"sandbox.gw.example.com/kruise/sess1/8080" — not the claimed
"gw.example.com/kruise/sess1/8080": it inserts a hard-coded "sandbox."
component before the domain. -/
theorem get_host_extra_component :
    Sandbox.get_host "gw.example.com" "sess1" 8080 ≠
      "gw.example.com" ++ "/kruise/" ++ "sess1" ++ "/" ++ toString 8080 ∧
    Sandbox.get_host "gw.example.com" "sess1" 8080 =
      "sandbox.gw.example.com/kruise/sess1/8080" := by
  refine ⟨by decide, by decide⟩

/-- Claim C5, amended: the monkey-patch host resolver
`__sandbox_get_host` produces exactly domain/kruise/id/port with no
additional components, while the subclass `Sandbox.get_host` produces
the same string prefixed by the extra literal "sandbox." before the
domain. -/
theorem get_host_amended (d sid : String) (p : Nat) :
    __sandbox_get_host d sid p = d ++ "/kruise/" ++ sid ++ "/" ++ toString p ∧
    Sandbox.get_host d sid p = "sandbox." ++ __sandbox_get_host d sid p := by
  refine ⟨rfl, ?_⟩
  simp only [Sandbox.get_host, __sandbox_get_host, String.append_assoc]

/-- Claim C6: `run_code_sandbox` classifies every exception as
retryable.  Whenever it surfaces an error at all, every one of the 5
attempts was consumed and the surfaced message is that of the fifth —
no error, whatever its message, short-circuits the loop early; and if
the first `t < 5` attempts fail with arbitrary errors while attempt `t`
succeeds, the wrapper returns that success after exactly `t` retries,
each preceded by the fixed 5-second sleep. -/
theorem run_code_all_errors_retryable (op : Nat → Except String α) :
    (∀ msg, (run_code_sandbox op).result = some (Except.error msg) →
      (run_code_sandbox op).invocations = 5 ∧ op 4 = Except.error msg) ∧
    (∀ t v, t < 5 → (∀ j, j < t → ∃ msg, op j = Except.error msg) →
      op t = Except.ok v →
      run_code_sandbox op = ⟨some (Except.ok v), t + 1, List.replicate t 5⟩) := by
  constructor
  · intro msg hres
    exact runIter_error_result op run_max_retries run_retry_interval
      run_max_retries 0 msg (by decide) (by decide) hres
  · intro t v ht hfail hok
    exact runIter_first_success op run_max_retries run_retry_interval v t 0
      run_max_retries (by rw [Nat.zero_add]; exact ht) (by decide)
      (fun j hj1 hj2 => hfail j (by omega))
      (by rw [Nat.zero_add]; exact hok)

/-- Concrete instantiation of `run_code_all_errors_retryable`: an
always-failing call consumes all 5 attempts, and a call failing twice
with a caller-input error before succeeding is retried through it. -/
theorem run_code_all_errors_retryable_witness :
    (run_code_sandbox (fun _ => (Except.error "SyntaxError" : Except String Unit))).invocations
      = 5 ∧
    run_code_sandbox
        (fun j => if j < 2 then (Except.error "SyntaxError" : Except String Unit)
          else Except.ok ()) =
      ⟨some (Except.ok ()), 3, List.replicate 2 5⟩ := by
  constructor
  · exact ((run_code_all_errors_retryable
      (fun _ => (Except.error "SyntaxError" : Except String Unit))).1 "SyntaxError" rfl).1
  · exact (run_code_all_errors_retryable
      (fun j => if j < 2 then (Except.error "SyntaxError" : Except String Unit)
        else Except.ok ())).2 2 () (by decide)
      (fun j hj => ⟨"SyntaxError", by simp [hj]⟩) rfl

/-- Claim C7: with the secure flag false, `Sandbox.create` sets
`connection_config.debug` on the returned session and `patch_e2b`
additionally forces the sandbox URL and the Jupyter URL to the
plain-http replacements (which produce "http://"-schemed URLs over the
kruise host); with the flag true, `create` leaves the connection
configuration untouched and `patch_e2b` leaves both URL methods at
their prior values. -/
theorem insecure_mode_side_effects (cfg : ConnectionConfig) (st : PatchState)
    (d sid : String) (p : Nat) :
    (create_debug_update false cfg).debug = true ∧
    create_debug_update true cfg = cfg ∧
    patch_e2b false (some d) st =
      .ok { st with
        env_E2B_API_URL := some ("http://" ++ d ++ "/kruise/api")
        sandboxBase_get_host_patched := true
        connCfg_get_host_patched := true
        connCfg_sandbox_url_forced_http := true
        jupyter_url_forced_http := true } ∧
    patch_e2b true (some d) st =
      .ok { st with
        env_E2B_API_URL := some ("https://" ++ d ++ "/kruise/api")
        sandboxBase_get_host_patched := true
        connCfg_get_host_patched := true } ∧
    __connection_config_get_sandbox_url_http sid d p =
      "http://" ++ (d ++ "/kruise/" ++ sid ++ "/" ++ toString p) ∧
    __jupyter_url_http d sid p =
      "http://" ++ (d ++ "/kruise/" ++ sid ++ "/" ++ toString p) :=
  ⟨rfl, rfl, rfl, rfl, rfl, rfl⟩

/-- Claim C8: `list_sandbox` exhausts pagination: for every paginator it
returns the in-order concatenation of all the pages, so the result is
the complete item set regardless of how the items are split into
pages. -/
theorem list_sandbox_complete (p : Paginator α) :
    list_sandbox p = p.pages.flatten := by
  obtain ⟨pages⟩ := p
  cases pages with
  | nil => rfl
  | cons pg rest => simp [list_sandbox, Paginator.next_items, listLoop_eq_join]

/-- Claim C9: neither wrapper can return the Python `None`: for every
behaviour of the underlying call, both `connect_sandbox` and
`run_code_sandbox` either return a successful result or raise, so the
trailing `return None` statements (utils.py lines 49 and 81) are
unreachable. -/
theorem wrappers_never_return_none (op : Nat → Except String α)
    (op2 : Nat → Except String β) :
    (connect_sandbox op).result ≠ none ∧ (run_code_sandbox op2).result ≠ none := by
  obtain ⟨-, -, h3, -⟩ := connectIter_inv op connect_max_retries connect_retry_interval
    connect_max_retries 0 (by decide) (by decide)
  obtain ⟨-, -, k3, -⟩ := runIter_inv op2 run_max_retries run_retry_interval
    run_max_retries 0 (by decide) (by decide)
  exact ⟨Option.isSome_iff_ne_none.mp h3, Option.isSome_iff_ne_none.mp k3⟩

/-- Claim C10: the subclass resolver `get_api_url` and the monkey-patch
resolver `__get_api_url` are extensionally equal: for every secure flag
and every state of the `E2B_DOMAIN` variable they produce the identical
outcome. -/
theorem api_url_resolvers_agree (https : Bool) (envDomain : Option String) :
    get_api_url https envDomain = __get_api_url https envDomain := by
  cases envDomain <;> rfl

/-- Concrete instantiation of `wrappers_never_return_none` at an
immediately succeeding operation. -/
theorem wrappers_never_return_none_witness :
    (connect_sandbox (fun _ => (Except.ok () : Except String Unit))).result ≠ none ∧
    (run_code_sandbox (fun _ => (Except.ok () : Except String Unit))).result ≠ none :=
  wrappers_never_return_none (fun _ => Except.ok ()) (fun _ => Except.ok ())
